import Mathlib

/-!
Verification development for the sportstensor prediction-lifecycle core
(src/vali_utils/utils.py, src/common/data.py).

Modelling conventions.
Datetimes are modelled as integers (UTC seconds); the tz-normalisation at
utils.py lines 646-650 is the identity on aware UTC instants, and the
str() comparisons on dates are modelled through toString on the integer.
Python float values are modelled by rationals, and a dynamically typed
numeric field is a tagged value distinguishing float from int, because the
validator rejects non-float numerics with isinstance.  League values are
modelled by their names (String) and Sport enum values by Nat.
-/

set_option autoImplicit false

namespace Sportstensor

/-- Modelled from the spec: common.data.ProbabilityChoice is imported by
src/vali_utils/utils.py but its declaration is not under src/.  Section 9 of
the spec describes the duck-typed field as a tagged variant resolved to a
canonical enumerated choice, and the section 8 scenario uses the label
"HOME"; the enum of known choices is accordingly home win, away win, draw. -/
inductive ProbabilityChoice where
  | homeTeamWin
  | awayTeamWin
  | draw
deriving DecidableEq

/-- Modelled from the spec: common.data.get_probablity_choice_from_string is
imported by src/vali_utils/utils.py but its declaration is not under src/.
It resolves a label string to a known enumerated choice, and returns none on
any unresolvable label (spec section 9: unresolvable values reject). -/
def get_probablity_choice_from_string (s : String) : Option ProbabilityChoice :=
  if s = "HOME" then some ProbabilityChoice.homeTeamWin
  else if s = "AWAY" then some ProbabilityChoice.awayTeamWin
  else if s = "DRAW" then some ProbabilityChoice.draw
  else none

/-- A dynamically typed Python numeric value: the validator distinguishes
floats from other numerics with isinstance (utils.py line 609). -/
inductive PNum where
  | pfloat (q : ℚ)
  | pint (n : ℤ)
deriving DecidableEq

/-- The duck-typed probabilityChoice payload: a label string or an
enumerated choice (utils.py lines 595-607, spec section 9). -/
inductive PCVal where
  | label (s : String)
  | choice (c : ProbabilityChoice)
deriving DecidableEq

/-- MatchPrediction (src/common/data.py lines 78-147).  The fields
probability, probabilityChoice, closingEdge and predictionDate are read and
written by src/vali_utils/utils.py but are absent from the data.py under
src/; they are modelled from the spec (section 3: mutable fields of a
Prediction are probability, probabilityChoice, isScored, scoredDate,
closingEdge). -/
structure MatchPrediction where
  predictionId : Option ℕ := none
  minerId : Option ℕ := none
  hotkey : Option String := none
  matchId : String
  matchDate : ℤ
  sport : ℕ
  league : String
  isScored : Bool := false
  scoredDate : Option ℤ := none
  homeTeamName : String
  awayTeamName : String
  homeTeamScore : Option ℤ := none
  awayTeamScore : Option ℤ := none
  probability : Option PNum := none
  probabilityChoice : Option PCVal := none
  closingEdge : Option ℚ := none
  predictionDate : Option ℤ := none
deriving DecidableEq

/-- Match (src/common/data.py lines 50-76), restricted to the fields the
core reads. -/
structure Match where
  matchId : String
  matchDate : ℤ
  sport : ℕ
  league : String
  isComplete : Bool := false
  homeTeamName : String
  awayTeamName : String
  homeTeamScore : Option ℤ := none
  awayTeamScore : Option ℤ := none
deriving DecidableEq

/-- is_match_prediction_valid (src/vali_utils/utils.py lines 579-672),
as a pure function of the response, the originating request and the current
time.  The checks run in source order: probabilityChoice present, choice
resolvable, probability a float, probability within bounds, current time
strictly before kickoff, then the echoed-field comparison (which includes
closingEdge equality with the request). -/
def validationAfterChoice (prediction : MatchPrediction)
    (request : MatchPrediction) (current_time : ℤ) : Bool × String :=
  match prediction.probability with
  | some (PNum.pfloat q) =>
    if q < 0 ∨ q > 1 then
      (false, "Probability is not between 0 and 1")
    else if current_time ≥ prediction.matchDate then
      (false, "Current time is not before start of match date")
    else if prediction.matchId ≠ request.matchId
        ∨ toString prediction.matchDate ≠ toString request.matchDate
        ∨ prediction.sport ≠ request.sport
        ∨ prediction.league ≠ request.league
        ∨ prediction.homeTeamName ≠ request.homeTeamName
        ∨ prediction.awayTeamName ≠ request.awayTeamName
        ∨ prediction.closingEdge ≠ request.closingEdge then
      (false, "Prediction response does not match prediction request")
    else
      (true, "")
  | _ => (false, "Probability is not a float")

def is_match_prediction_valid (prediction : MatchPrediction)
    (request : MatchPrediction) (current_time : ℤ) : Bool × String :=
  match prediction.probabilityChoice with
  | none => (false, "Probability choice is None")
  | some (PCVal.label s) =>
    if (get_probablity_choice_from_string s).isNone then
      (false, "Probability choice is not a valid choice")
    else
      validationAfterChoice prediction request current_time
  | some (PCVal.choice _) =>
    validationAfterChoice prediction request current_time

/-- The probability field holds a numeric value lying in the unit
interval. -/
def numericIn01 : Option PNum → Prop
  | some (PNum.pfloat q) => 0 ≤ q ∧ q ≤ 1
  | some (PNum.pint n) => 0 ≤ n ∧ n ≤ 1
  | none => False

instance : DecidablePred numericIn01 := by
  intro p
  unfold numericIn01
  match p with
  | some (PNum.pfloat q) => exact inferInstanceAs (Decidable (0 ≤ q ∧ q ≤ 1))
  | some (PNum.pint n) => exact inferInstanceAs (Decidable (0 ≤ n ∧ n ≤ 1))
  | none => exact inferInstanceAs (Decidable False)

/-- All fields echoed back by a responder agree with the request: this is
the comparison block of utils.py lines 657-670 minus the closingEdge
conjunct, which the spec treats separately (it is not an immutable echoed
field). -/
def immutableFieldsMatch (prediction request : MatchPrediction) : Prop :=
  prediction.matchId = request.matchId
    ∧ prediction.matchDate = request.matchDate
    ∧ prediction.sport = request.sport
    ∧ prediction.league = request.league
    ∧ prediction.homeTeamName = request.homeTeamName
    ∧ prediction.awayTeamName = request.awayTeamName

instance (p r : MatchPrediction) : Decidable (immutableFieldsMatch p r) := by
  unfold immutableFieldsMatch
  infer_instance

/-- The response carries a probabilityChoice that resolves to a known
choice. -/
def choiceResolvable : Option PCVal → Prop
  | some (PCVal.label s) => (get_probablity_choice_from_string s).isSome = true
  | some (PCVal.choice _) => True
  | none => False

instance : DecidablePred choiceResolvable := by
  intro p
  unfold choiceResolvable
  match p with
  | some (PCVal.label s) =>
    exact inferInstanceAs (Decidable ((get_probablity_choice_from_string s).isSome = true))
  | some (PCVal.choice _) => exact inferInstanceAs (Decidable True)
  | none => exact inferInstanceAs (Decidable False)

theorem afterChoice_true_shape (prediction request : MatchPrediction) (now : ℤ)
    (h : (validationAfterChoice prediction request now).1 = true) :
    (∃ q, prediction.probability = some (PNum.pfloat q) ∧ 0 ≤ q ∧ q ≤ 1)
      ∧ prediction.closingEdge = request.closingEdge
      ∧ now < prediction.matchDate := by
  unfold validationAfterChoice at h
  rcases hp : prediction.probability with _ | pn
  · rw [hp] at h
    simp at h
  · rcases pn with q | n
    · rw [hp] at h
      simp only at h
      split_ifs at h with h1 h2 h3
      push_neg at h1 h2 h3
      exact ⟨⟨q, rfl, h1.1, h1.2⟩, h3.2.2.2.2.2.2, h2⟩
    · rw [hp] at h
      simp at h

theorem valid_true_shape (prediction request : MatchPrediction) (now : ℤ)
    (h : (is_match_prediction_valid prediction request now).1 = true) :
    (∃ q, prediction.probability = some (PNum.pfloat q) ∧ 0 ≤ q ∧ q ≤ 1)
      ∧ prediction.closingEdge = request.closingEdge
      ∧ now < prediction.matchDate := by
  unfold is_match_prediction_valid at h
  rcases hpc : prediction.probabilityChoice with _ | pc
  · rw [hpc] at h
    simp at h
  · rcases pc with s | c
    · rw [hpc] at h
      simp only at h
      split_ifs at h with h1
      exact afterChoice_true_shape prediction request now h
    · rw [hpc] at h
      exact afterChoice_true_shape prediction request now h

/-- A concrete prediction request, as built by the scheduler: only identity
fields set, everything else at its default. -/
def reqA : MatchPrediction :=
  { matchId := "m1", matchDate := 1000, sport := 1, league := "EPL",
    homeTeamName := "H", awayTeamName := "A" }

/-- A well-formed response to reqA: probability 0.73, label HOME, all echoed
fields matching, closingEdge untouched. -/
def respGood : MatchPrediction :=
  { reqA with probability := some (PNum.pfloat (mkRat 73 100)),
              probabilityChoice := some (PCVal.label "HOME") }

/-- A response identical to respGood except probability 1.2. -/
def respProb12 : MatchPrediction :=
  { respGood with probability := some (PNum.pfloat (mkRat 6 5)) }

/-- A response with probability 0.73 and all echoed fields matching, but no
probabilityChoice. -/
def respNoChoice : MatchPrediction :=
  { reqA with probability := some (PNum.pfloat (mkRat 73 100)) }

/-- A response identical to respGood except for a non-null closingEdge. -/
def respTampered : MatchPrediction :=
  { respGood with closingEdge := some (mkRat 1 10) }

theorem validation_accepts (prediction request : MatchPrediction) (now : ℤ)
    (hq : prediction.probability = some (PNum.pfloat (mkRat 73 100)))
    (hc : choiceResolvable prediction.probabilityChoice)
    (hm : immutableFieldsMatch prediction request)
    (he1 : prediction.closingEdge = none) (he2 : request.closingEdge = none)
    (ht : now < prediction.matchDate) :
    (is_match_prediction_valid prediction request now).1 = true := by
  obtain ⟨hmid, hmd, hsp, hlg, hht, hat⟩ := hm
  have hAfter : (validationAfterChoice prediction request now).1 = true := by
    unfold validationAfterChoice
    rw [hq]
    simp only
    split_ifs with h1 h2 h3
    · exact absurd h1 (by decide)
    · exact absurd h2 (not_le.mpr ht)
    · rcases h3 with h | h | h | h | h | h | h
      · exact absurd hmid h
      · exact absurd (by rw [hmd]) h
      · exact absurd hsp h
      · exact absurd hlg h
      · exact absurd hht h
      · exact absurd hat h
      · exact absurd (by rw [he1, he2]) h
    · rfl
  rcases hpc : prediction.probabilityChoice with _ | pc
  · rw [hpc] at hc
    exact absurd hc id
  · rcases pc with s | c
    · rw [hpc] at hc
      change (get_probablity_choice_from_string s).isSome = true at hc
      cases hgs : get_probablity_choice_from_string s with
      | none =>
        rw [hgs] at hc
        simp at hc
      | some c =>
        unfold is_match_prediction_valid
        rw [hpc]
        simp [hgs, hAfter]
    · unfold is_match_prediction_valid
      rw [hpc]
      simpa using hAfter

/-- C2: the claim, as stated, is false on the code: a response carrying
probability 0.73 with every echoed immutable field matching the request and
received strictly before kickoff is nevertheless rejected when its
probabilityChoice is absent, because the validator checks probabilityChoice
first (utils.py lines 588-593). -/
theorem validator_accept_clause_counterexample :
    respNoChoice.probability = some (PNum.pfloat (mkRat 73 100))
      ∧ immutableFieldsMatch respNoChoice reqA
      ∧ (500 : ℤ) < respNoChoice.matchDate
      ∧ reqA.closingEdge = none
      ∧ (is_match_prediction_valid respNoChoice reqA 500).1 = false := by
  refine ⟨rfl, ?_, by decide, rfl, rfl⟩
  refine ⟨rfl, rfl, rfl, rfl, rfl, rfl⟩

/-- C2 (amended): validation is a pure function of the response, the request
and the current time; it rejects every response whose probability is not a
numeric value in the unit interval (in particular probability 1.2), and it
accepts a response with probability 0.73 provided additionally that its
probabilityChoice resolves to a known choice, its closingEdge is null like
the request one, all echoed immutable fields match, and the current time is
strictly before kickoff. -/
theorem validator_probability_amended :
    (∀ (prediction request : MatchPrediction) (now : ℤ),
        ¬numericIn01 prediction.probability →
        (is_match_prediction_valid prediction request now).1 = false)
      ∧ (∀ (prediction request : MatchPrediction) (now : ℤ),
        prediction.probability = some (PNum.pfloat (mkRat 73 100)) →
        choiceResolvable prediction.probabilityChoice →
        immutableFieldsMatch prediction request →
        prediction.closingEdge = none → request.closingEdge = none →
        now < prediction.matchDate →
        (is_match_prediction_valid prediction request now).1 = true) := by
  constructor
  · intro prediction request now hnot
    cases hres : (is_match_prediction_valid prediction request now).1
    · rfl
    · exfalso
      obtain ⟨⟨q, hq, h0, h1⟩, -, -⟩ :=
        valid_true_shape prediction request now hres
      apply hnot
      rw [hq]
      exact ⟨h0, h1⟩
  · exact validation_accepts

theorem validator_probability_amended_witness :
    (¬numericIn01 respProb12.probability
      ∧ (is_match_prediction_valid respProb12 reqA 500).1 = false)
      ∧ (is_match_prediction_valid respGood reqA 500).1 = true := by
  refine ⟨⟨by decide, validator_probability_amended.1 respProb12 reqA 500 (by decide)⟩, ?_⟩
  exact validator_probability_amended.2 respGood reqA 500 rfl (by decide)
    (by decide) rfl rfl (by decide)

/-- C3: whenever the originating request carries a null closingEdge, any
response with a non-null closingEdge is rejected, whatever its other fields:
every earlier check only rejects, and the final success branch requires the
response closingEdge to equal the null of the request (utils.py line 665). -/
theorem validator_rejects_nonnull_closingEdge
    (prediction request : MatchPrediction) (now : ℤ)
    (hreq : request.closingEdge = none)
    (hne : prediction.closingEdge ≠ none) :
    (is_match_prediction_valid prediction request now).1 = false := by
  cases hres : (is_match_prediction_valid prediction request now).1
  · rfl
  · exfalso
    obtain ⟨-, hedge, -⟩ := valid_true_shape prediction request now hres
    rw [hreq] at hedge
    exact hne hedge

theorem validator_rejects_nonnull_closingEdge_witness :
    (is_match_prediction_valid respGood reqA 500).1 = true
      ∧ (is_match_prediction_valid respTampered reqA 500).1 = false := by
  constructor
  · decide
  · exact validator_rejects_nonnull_closingEdge respTampered reqA 500 rfl (by decide)

/-! ## Window Scheduler (utils.py get_match_prediction_requests, lines 351-414) -/

/-- The four prediction windows, in the fixed evaluation order of the
prediction_windows list (utils.py lines 389-394). -/
inductive Window where
  | w24
  | w12
  | w4
  | w10
deriving DecidableEq

/-- Upper bound of a window, in seconds before kickoff. -/
def Window.upper : Window → ℤ
  | Window.w24 => 24 * 3600
  | Window.w12 => 12 * 3600
  | Window.w4 => 4 * 3600
  | Window.w10 => 15 * 60

/-- Lower bound of a window, in seconds before kickoff. -/
def Window.lower : Window → ℤ
  | Window.w24 => 23 * 3600
  | Window.w12 => 11 * 3600
  | Window.w4 => 3 * 3600
  | Window.w10 => 5 * 60

/-- The per-match window-completion flags, keyed 24_hour, 12_hour, 4_hour,
10_min in the stored request map (utils.py lines 369-374). -/
structure WindowFlags where
  h24 : Bool
  h12 : Bool
  h4 : Bool
  m10 : Bool
deriving DecidableEq

/-- The lazily-created initial flag record: all four flags false. -/
def WindowFlags.initial : WindowFlags :=
  { h24 := false, h12 := false, h4 := false, m10 := false }

def WindowFlags.read : WindowFlags → Window → Bool
  | f, Window.w24 => f.h24
  | f, Window.w12 => f.h12
  | f, Window.w4 => f.h4
  | f, Window.w10 => f.m10

/-- storage.update_match_prediction_request for one window key: the flag of
that window becomes true. -/
def WindowFlags.mark : WindowFlags → Window → WindowFlags
  | f, Window.w24 => { f with h24 := true }
  | f, Window.w12 => { f with h12 := true }
  | f, Window.w4 => { f with h4 := true }
  | f, Window.w10 => { f with m10 := true }

/-- The loop condition at utils.py lines 398-399: flag still false and
upper_bound greater-equal time_until_match strictly above lower_bound. -/
def windowFires (flags : WindowFlags) (w : Window) (t : ℤ) : Bool :=
  !flags.read w && decide (w.upper ≥ t ∧ t > w.lower)

/-- The for-loop over prediction_windows with its break, as a first-match
search in the fixed order 24_hour, 12_hour, 4_hour, 10_min. -/
def firstFiringWindow (flags : WindowFlags) (t : ℤ) : Option Window :=
  if windowFires flags Window.w24 t then some Window.w24
  else if windowFires flags Window.w12 t then some Window.w12
  else if windowFires flags Window.w4 t then some Window.w4
  else if windowFires flags Window.w10 t then some Window.w10
  else none

/-- The stored match_prediction_requests map, matchId to window flags. -/
def RequestMap := List (String × WindowFlags)

def lookupFlags : RequestMap → String → Option WindowFlags
  | [], _ => none
  | (k, f) :: rest, key => if k = key then some f else lookupFlags rest key

def storeFlags : RequestMap → String → WindowFlags → RequestMap
  | [], key, f => [(key, f)]
  | (k, g) :: rest, key, f =>
    if k = key then (k, f) :: rest else (k, g) :: storeFlags rest key f

/-- The MatchPrediction emitted for a firing window (utils.py lines
401-410): identity fields copied from the match, every optional field left
at its default (in particular null scores).  The source passes
str(match.matchDate), which pydantic coerces back to a datetime at
construction; under the integer datetime model this is the identity. -/
def emittedRequest (m : Match) : MatchPrediction :=
  { matchId := m.matchId, matchDate := m.matchDate, sport := m.sport,
    league := m.league, homeTeamName := m.homeTeamName,
    awayTeamName := m.awayTeamName }

/-- The flags the loop body reads for a match: the stored record, or the
lazily-created all-false record when the match is not yet in the map
(utils.py lines 368-374). -/
def flagsFor (st : RequestMap) (matchId : String) : WindowFlags :=
  (lookupFlags st matchId).getD WindowFlags.initial

/-- Lazy initialisation of the stored flag record for a match (utils.py
lines 368-374): when the match is not yet in the map, an all-false record
is stored for it. -/
def initStore (st : RequestMap) (matchId : String) : RequestMap :=
  if (lookupFlags st matchId).isNone then
    storeFlags st matchId WindowFlags.initial
  else st

/-- One iteration of the match loop of get_match_prediction_requests:
skip matches of non-active leagues, lazily initialise the flag record,
compute time_until_match, and fire at most the first matching window,
marking its flag in storage (utils.py lines 362-412). -/
def processMatch (activeLeagues : String → Bool) (now : ℤ)
    (st : RequestMap) (m : Match) : Option MatchPrediction × RequestMap :=
  if !activeLeagues m.league then (none, st)
  else
    match firstFiringWindow (flagsFor st m.matchId) (m.matchDate - now) with
    | none => (none, initStore st m.matchId)
    | some w =>
      (some (emittedRequest m),
        storeFlags (initStore st m.matchId) m.matchId
          ((flagsFor st m.matchId).mark w))

/-- get_match_prediction_requests: the scheduling pass over the fetched
match list, threading the stored request map. -/
def get_match_prediction_requests (activeLeagues : String → Bool) (now : ℤ)
    (st : RequestMap) : List Match → List MatchPrediction × RequestMap
  | [] => ([], st)
  | m :: rest =>
    let step := processMatch activeLeagues now st m
    let tail := get_match_prediction_requests activeLeagues now step.2 rest
    (step.1.toList ++ tail.1, tail.2)

theorem processMatch_emits_own_id (activeLeagues : String → Bool) (now : ℤ)
    (st : RequestMap) (m : Match) (req : MatchPrediction)
    (h : (processMatch activeLeagues now st m).1 = some req) :
    req = emittedRequest m := by
  unfold processMatch at h
  split_ifs at h with h1
  rcases hw : firstFiringWindow (flagsFor st m.matchId) (m.matchDate - now)
    with _ | w <;> rw [hw] at h
  · simp at h
  · exact (Option.some_inj.mp h).symm

theorem pass_requests_ids (activeLeagues : String → Bool) (now : ℤ) :
    ∀ (ms : List Match) (st : RequestMap) (mid : String),
    ((get_match_prediction_requests activeLeagues now st ms).1.filter
        (fun p => p.matchId = mid)).length
      ≤ (ms.map Match.matchId).count mid := by
  intro ms
  induction ms with
  | nil =>
    intro st mid
    simp [get_match_prediction_requests]
  | cons m rest ih =>
    intro st mid
    unfold get_match_prediction_requests
    simp only [List.map_cons, List.filter_append, List.length_append]
    rw [List.count_cons]
    rcases hstep : (processMatch activeLeagues now st m).1 with _ | req
    · simp only [Option.toList_none, List.filter_nil, List.length_nil]
      have := ih (processMatch activeLeagues now st m).2 mid
      omega
    · have hid : req = emittedRequest m :=
        processMatch_emits_own_id activeLeagues now st m req hstep
      have hrec := ih (processMatch activeLeagues now st m).2 mid
      simp only [Option.toList_some]
      by_cases hmid : m.matchId = mid
      · have hone : (List.filter (fun p => decide (p.matchId = mid)) [req]).length ≤ 1 := by
          simp [List.filter]
          split <;> simp
        simp only [hmid, beq_self_eq_true, if_pos]
        omega
      · have hreqmid : ¬(req.matchId = mid) := by
          rw [hid]
          exact hmid
        have hz : (List.filter (fun p => decide (p.matchId = mid)) [req]).length = 0 := by
          simp [List.filter, hreqmid]
        have hne : (m.matchId == mid) = false := by
          simp [hmid]
        simp only [hne, Bool.false_eq_true, if_false]
        omega

theorem read_mark_self (f : WindowFlags) (w : Window) :
    (f.mark w).read w = true := by
  cases w <;> rfl

theorem read_mark_other (f : WindowFlags) (w w2 : Window) (h : w2 ≠ w) :
    (f.mark w).read w2 = f.read w2 := by
  cases w <;> cases w2 <;> first | rfl | exact absurd rfl h

theorem lookup_store_self (st : RequestMap) (key : String) (f : WindowFlags) :
    lookupFlags (storeFlags st key f) key = some f := by
  induction st with
  | nil => simp [storeFlags, lookupFlags]
  | cons p rest ih =>
    unfold storeFlags
    by_cases hk : p.1 = key
    · simp [hk, lookupFlags]
    · simp [hk, lookupFlags, ih]

theorem firstFiring_some_fires (flags : WindowFlags) (t : ℤ) (w : Window)
    (h : firstFiringWindow flags t = some w) : windowFires flags w t = true := by
  unfold firstFiringWindow at h
  split_ifs at h with a b c d <;>
    simp only [Option.some_inj] at h <;> subst h <;> assumption

theorem windowFires_read_false (flags : WindowFlags) (t : ℤ) (w : Window)
    (h : windowFires flags w t = true) : flags.read w = false := by
  unfold windowFires at h
  rcases hr : flags.read w with _ | _
  · rfl
  · rw [hr] at h
    simp at h

theorem processMatch_firing_flag (activeLeagues : String → Bool) (now : ℤ)
    (st : RequestMap) (m : Match) (req : MatchPrediction)
    (h : (processMatch activeLeagues now st m).1 = some req) :
    ∃ w, (flagsFor st m.matchId).read w = false
      ∧ lookupFlags (processMatch activeLeagues now st m).2 m.matchId
          = some ((flagsFor st m.matchId).mark w)
      ∧ ((flagsFor st m.matchId).mark w).read w = true
      ∧ ∀ w2, w2 ≠ w →
          ((flagsFor st m.matchId).mark w).read w2
            = (flagsFor st m.matchId).read w2 := by
  unfold processMatch at h ⊢
  split_ifs at h with h1
  rw [if_neg h1]
  rcases hw : firstFiringWindow (flagsFor st m.matchId) (m.matchDate - now)
    with _ | w <;> rw [hw] at h
  · simp at h
  · refine ⟨w, ?_, ?_, read_mark_self _ w, fun w2 hw2 => read_mark_other _ w w2 hw2⟩
    · exact windowFires_read_false _ _ w (firstFiring_some_fires _ _ w hw)
    · exact lookup_store_self _ _ _

/-- C1: in a scheduling pass over matches with pairwise distinct ids, at
most one prediction request is emitted per match; and every firing marks
exactly one window flag, namely the flag of the window that fired, which
goes from false to true while every other flag is unchanged. -/
theorem scheduler_one_request_one_flag :
    (∀ (activeLeagues : String → Bool) (now : ℤ) (st : RequestMap)
        (ms : List Match), (ms.map Match.matchId).Nodup →
      ∀ mid, ((get_match_prediction_requests activeLeagues now st ms).1.filter
          (fun p => p.matchId = mid)).length ≤ 1)
      ∧ (∀ (activeLeagues : String → Bool) (now : ℤ) (st : RequestMap)
          (m : Match) (req : MatchPrediction),
        (processMatch activeLeagues now st m).1 = some req →
        ∃ w, (flagsFor st m.matchId).read w = false
          ∧ lookupFlags (processMatch activeLeagues now st m).2 m.matchId
              = some ((flagsFor st m.matchId).mark w)
          ∧ ((flagsFor st m.matchId).mark w).read w = true
          ∧ ∀ w2, w2 ≠ w →
              ((flagsFor st m.matchId).mark w).read w2
                = (flagsFor st m.matchId).read w2) := by
  constructor
  · intro activeLeagues now st ms hnd mid
    exact le_trans (pass_requests_ids activeLeagues now ms st mid)
      (List.nodup_iff_count_le_one.mp hnd mid)
  · exact processMatch_firing_flag

/-- A concrete upcoming match in an active league, kicking off 23.5 hours
(84600 seconds) after time zero. -/
def matchA : Match :=
  { matchId := "m1", matchDate := 84600, sport := 1, league := "EPL",
    homeTeamName := "H", awayTeamName := "A" }

theorem scheduler_one_request_one_flag_witness :
    (((get_match_prediction_requests (fun l => l == "EPL") 0
          ([] : RequestMap) [matchA]).1.filter
        (fun p => p.matchId = "m1")).length ≤ 1)
      ∧ ∃ w, (flagsFor ([] : RequestMap) matchA.matchId).read w = false
          ∧ lookupFlags
              (processMatch (fun l => l == "EPL") 0 ([] : RequestMap) matchA).2
              matchA.matchId
              = some ((flagsFor ([] : RequestMap) matchA.matchId).mark w) := by
  constructor
  · exact scheduler_one_request_one_flag.1 (fun l => l == "EPL") 0
      ([] : RequestMap) [matchA] (by decide) "m1"
  · obtain ⟨w, hw1, hw2, -, -⟩ :=
      scheduler_one_request_one_flag.2 (fun l => l == "EPL") 0
        ([] : RequestMap) matchA (emittedRequest matchA) (by decide)
    exact ⟨w, hw1, hw2⟩

theorem firstFiring_initial_iff (t : ℤ) (w : Window) :
    firstFiringWindow WindowFlags.initial t = some w
      ↔ (Window.lower w < t ∧ t ≤ Window.upper w) := by
  cases w <;>
    (simp only [firstFiringWindow, windowFires, WindowFlags.initial,
      WindowFlags.read, Bool.not_false, Bool.true_and, decide_eq_true_eq,
      Window.upper, Window.lower]
     constructor
     · intro h
       split_ifs at h with a b c d <;> simp only [Option.some_inj] at h <;>
         first | omega | cases h
     · intro h
       split_ifs with a b c d <;> first | rfl | omega)

/-- C8: for an active-league match whose flags are all false, a window
fires exactly when time-to-kickoff lies in its half-open interval, the
intervals being (23h, 24h], (11h, 12h], (3h, 4h] and (5min, 15min] in the
fixed evaluation order; in particular at 23.5 hours (84600 seconds) before
kickoff the 24_hour window fires, its flag is set, and one request with
null scores is emitted. -/
theorem scheduler_fires_iff_in_window (activeLeagues : String → Bool)
    (now : ℤ) (st : RequestMap) (m : Match)
    (hact : activeLeagues m.league = true)
    (hflags : flagsFor st m.matchId = WindowFlags.initial) :
    (∀ w, firstFiringWindow (flagsFor st m.matchId) (m.matchDate - now) = some w
        ↔ (Window.lower w < m.matchDate - now ∧ m.matchDate - now ≤ Window.upper w))
      ∧ ((processMatch activeLeagues now st m).1.isSome = true
          ↔ ∃ w, Window.lower w < m.matchDate - now ∧ m.matchDate - now ≤ Window.upper w)
      ∧ (now = m.matchDate - 84600 →
          (processMatch activeLeagues now st m).1 = some (emittedRequest m)
            ∧ lookupFlags (processMatch activeLeagues now st m).2 m.matchId
                = some (WindowFlags.initial.mark Window.w24)
            ∧ (emittedRequest m).homeTeamScore = none
            ∧ (emittedRequest m).awayTeamScore = none) := by
  have hiff : ∀ w,
      firstFiringWindow (flagsFor st m.matchId) (m.matchDate - now) = some w
        ↔ (Window.lower w < m.matchDate - now ∧ m.matchDate - now ≤ Window.upper w) := by
    intro w
    rw [hflags]
    exact firstFiring_initial_iff (m.matchDate - now) w
  have hskip : ¬(!activeLeagues m.league) = true := by
    rw [hact]
    simp
  refine ⟨hiff, ?_, ?_⟩
  · unfold processMatch
    rw [if_neg hskip]
    rcases hw : firstFiringWindow (flagsFor st m.matchId) (m.matchDate - now)
      with _ | w
    · simp only [Option.isSome_none]
      constructor
      · intro h
        cases h
      · rintro ⟨w, hwin⟩
        rw [(hiff w).mpr hwin] at hw
        cases hw
    · simp only [Option.isSome_some, true_iff]
      exact ⟨w, (hiff w).mp hw⟩
  · intro hnow
    have ht : m.matchDate - now = 84600 := by
      rw [hnow]
      ring
    have hw24 : firstFiringWindow (flagsFor st m.matchId) (m.matchDate - now)
        = some Window.w24 := by
      apply (hiff Window.w24).mpr
      rw [ht]
      constructor <;> decide
    unfold processMatch
    rw [if_neg hskip, hw24, hflags]
    exact ⟨rfl, lookup_store_self _ _ _, rfl, rfl⟩

theorem scheduler_fires_iff_in_window_witness :
    (fun l => l == "EPL") matchA.league = true
      ∧ flagsFor ([] : RequestMap) matchA.matchId = WindowFlags.initial
      ∧ (processMatch (fun l => l == "EPL") 0 ([] : RequestMap) matchA).1
          = some (emittedRequest matchA)
      ∧ lookupFlags
          (processMatch (fun l => l == "EPL") 0 ([] : RequestMap) matchA).2
          matchA.matchId
          = some (WindowFlags.initial.mark Window.w24)
      ∧ (emittedRequest matchA).homeTeamScore = none
      ∧ (emittedRequest matchA).awayTeamScore = none := by
  have h := (scheduler_fires_iff_in_window (fun l => l == "EPL") 0
      ([] : RequestMap) matchA (by decide) (by decide)).2.2 (by decide)
  exact ⟨by decide, by decide, h.1, h.2.1, h.2.2.1, h.2.2.2⟩

/-! ## Edge Scoring Engine
(utils.py find_and_score_edge_match_predictions, lines 531-576) -/

/-- MatchPredictionWithMatchData (src/common/data.py lines 149-152).  The
three odds fields are modelled from the spec: get_actual_winner_odds is
called at utils.py line 555 but is not declared under src/, and the spec
(sections 3 and 4.6) has the scoring input carry recorded consensus closing
odds for the match. -/
structure MatchPredictionWithMatchData where
  prediction : MatchPrediction
  actualHomeTeamScore : ℤ
  actualAwayTeamScore : ℤ
  homeTeamOdds : ℚ
  awayTeamOdds : ℚ
  drawOdds : ℚ
deriving DecidableEq

/-- Modelled from the spec: MatchPrediction.get_predicted_team is called at
utils.py line 552 but not declared under src/; section 4.6: derive the
predicted side from probabilityChoice through the home-away mapping. -/
def get_predicted_team (p : MatchPrediction) : Option ProbabilityChoice :=
  match p.probabilityChoice with
  | some (PCVal.label s) => get_probablity_choice_from_string s
  | some (PCVal.choice c) => some c
  | none => none

/-- Modelled from the spec: get_actual_winner is called at utils.py line 554
but not declared under src/; section 4.6: derive the actual winner (or draw)
from the final scores. -/
def get_actual_winner (pwmd : MatchPredictionWithMatchData) : ProbabilityChoice :=
  if pwmd.actualHomeTeamScore > pwmd.actualAwayTeamScore then
    ProbabilityChoice.homeTeamWin
  else if pwmd.actualAwayTeamScore > pwmd.actualHomeTeamScore then
    ProbabilityChoice.awayTeamWin
  else ProbabilityChoice.draw

/-- Modelled from the spec: get_actual_winner_odds is called at utils.py
line 555 but not declared under src/; it reads the consensus closing odds of
the side that actually won. -/
def get_actual_winner_odds (pwmd : MatchPredictionWithMatchData) : ℚ :=
  match get_actual_winner pwmd with
  | ProbabilityChoice.homeTeamWin => pwmd.homeTeamOdds
  | ProbabilityChoice.awayTeamWin => pwmd.awayTeamOdds
  | ProbabilityChoice.draw => pwmd.drawOdds

/-- The numeric value carried by the probability field. -/
def probValue : Option PNum → ℚ
  | some (PNum.pfloat q) => q
  | some (PNum.pint n) => (n : ℚ)
  | none => 0

/-- Modelled from the spec: vali_utils.scoring_utils.calculate_edge is
called at utils.py line 551 but scoring_utils is not under src/.  Section
4.6: correctWinnerScore is 1 when the predicted side equals the actual
winner and 0 otherwise; edge is the predicted probability minus the
market-implied probability of the actual winning side, the latter taken as
the reciprocal of the decimal consensus closing odds. -/
def calculate_edge (prediction_team : Option ProbabilityChoice)
    (prediction_prob : ℚ) (actual_team : ProbabilityChoice)
    (consensus_closing_odds : ℚ) : ℚ × ℤ :=
  (prediction_prob - 1 / consensus_closing_odds,
    if prediction_team = some actual_team then 1 else 0)

/-- The edge computed by one iteration of the scoring loop (utils.py lines
551-556). -/
def scoreEdge (pwmd : MatchPredictionWithMatchData) : ℚ :=
  (calculate_edge (get_predicted_team pwmd.prediction)
    (probValue pwmd.prediction.probability)
    (get_actual_winner pwmd) (get_actual_winner_odds pwmd)).1

/-- The correct-winner score computed by one iteration of the scoring
loop. -/
def scoreCorrect (pwmd : MatchPredictionWithMatchData) : ℤ :=
  (calculate_edge (get_predicted_team pwmd.prediction)
    (probValue pwmd.prediction.probability)
    (get_actual_winner pwmd) (get_actual_winner_odds pwmd)).2

/-- The prediction after the loop body assignment
prediction.closingEdge = edge (utils.py line 557). -/
def scoredPrediction (pwmd : MatchPredictionWithMatchData) : MatchPrediction :=
  { pwmd.prediction with closingEdge := some (scoreEdge pwmd) }

/-- Modelled from the spec: storage.update_match_predictions (called at
utils.py line 568 under the comment marking predictions as scored in the
local db) is not under src/; section 4.6: flip isScored true and persist the
batch. -/
def update_match_predictions (preds : List MatchPrediction) : List MatchPrediction :=
  preds.map (fun p => { p with isScored := true })

/-- The five positionally aligned result sequences of a scoring pass plus
the batch handed to storage. -/
structure ScoringPassResult where
  edge_scores : List ℚ
  correct_winner_results : List ℤ
  miner_uids : List (Option ℕ)
  sports : List ℕ
  leagues : List String
  persisted : List MatchPrediction

/-- find_and_score_edge_match_predictions (utils.py lines 531-576) over a
fetched batch: the per-iteration appends to the parallel accumulator lists
are maps over the batch, and the predictions list handed to
storage.update_match_predictions is the persisted batch. -/
def find_and_score_edge_match_predictions
    (batch : List MatchPredictionWithMatchData) : ScoringPassResult :=
  { edge_scores := batch.map scoreEdge,
    correct_winner_results := batch.map scoreCorrect,
    miner_uids := batch.map (fun pwmd => pwmd.prediction.minerId),
    sports := batch.map (fun pwmd => pwmd.prediction.sport),
    leagues := batch.map (fun pwmd => pwmd.prediction.league),
    persisted := update_match_predictions (batch.map scoredPrediction) }

/-- A placeholder prediction used only as a getD default. -/
def emptyPrediction : MatchPrediction :=
  { matchId := "", matchDate := 0, sport := 0, league := "",
    homeTeamName := "", awayTeamName := "" }

/-- A placeholder scoring input used only as a getD default. -/
def emptyPwmd : MatchPredictionWithMatchData :=
  { prediction := emptyPrediction, actualHomeTeamScore := 0,
    actualAwayTeamScore := 0, homeTeamOdds := 1, awayTeamOdds := 1,
    drawOdds := 1 }

theorem getD_map {α β : Type} (f : α → β) (l : List α) (i : ℕ) (d : β)
    (dd : α) (h : i < l.length) :
    (l.map f).getD i d = f (l.getD i dd) := by
  rw [List.getD_eq_getElem (l.map f) d (by simpa using h),
    List.getD_eq_getElem l dd h]
  simp

/-- C9: the scoring pass yields five sequences of equal length, and at each
index i all five are computed from the same batch element: its edge, its
correct-winner result, its responder id, its sport and its league. -/
theorem scoring_pass_alignment (batch : List MatchPredictionWithMatchData) :
    ((find_and_score_edge_match_predictions batch).edge_scores.length = batch.length
      ∧ (find_and_score_edge_match_predictions batch).correct_winner_results.length = batch.length
      ∧ (find_and_score_edge_match_predictions batch).miner_uids.length = batch.length
      ∧ (find_and_score_edge_match_predictions batch).sports.length = batch.length
      ∧ (find_and_score_edge_match_predictions batch).leagues.length = batch.length)
      ∧ ∀ i, i < batch.length →
        (find_and_score_edge_match_predictions batch).edge_scores.getD i 0
            = scoreEdge (batch.getD i emptyPwmd)
          ∧ (find_and_score_edge_match_predictions batch).correct_winner_results.getD i 0
              = scoreCorrect (batch.getD i emptyPwmd)
          ∧ (find_and_score_edge_match_predictions batch).miner_uids.getD i none
              = (batch.getD i emptyPwmd).prediction.minerId
          ∧ (find_and_score_edge_match_predictions batch).sports.getD i 0
              = (batch.getD i emptyPwmd).prediction.sport
          ∧ (find_and_score_edge_match_predictions batch).leagues.getD i ""
              = (batch.getD i emptyPwmd).prediction.league := by
  constructor
  · refine ⟨?_, ?_, ?_, ?_, ?_⟩ <;>
      simp [find_and_score_edge_match_predictions]
  · intro i h
    refine ⟨?_, ?_, ?_, ?_, ?_⟩ <;>
      simp only [find_and_score_edge_match_predictions] <;>
      rw [getD_map _ batch i _ emptyPwmd h]

/-- A concrete scoring input: the respGood response stamped with responder
id 7, on a completed match the home team won, with closing odds 3/2, 5/2
and 3. -/
def pwmdA : MatchPredictionWithMatchData :=
  { prediction := { respGood with minerId := some 7 },
    actualHomeTeamScore := 2, actualAwayTeamScore := 1,
    homeTeamOdds := mkRat 3 2, awayTeamOdds := mkRat 5 2, drawOdds := 3 }

theorem scoring_pass_alignment_witness :
    (find_and_score_edge_match_predictions [pwmdA]).edge_scores.length = 1
      ∧ (find_and_score_edge_match_predictions [pwmdA]).miner_uids.getD 0 none
          = some 7 := by
  have h := scoring_pass_alignment [pwmdA]
  exact ⟨h.1.1, (h.2 0 (by decide)).2.2.1⟩

/-- C4: every prediction of the scored batch reaches storage with its
closingEdge set to the edge computed for it and its isScored flag true
(the flag flip happening in storage.update_match_predictions, modelled from
the spec). -/
theorem scoring_sets_edge_and_isScored
    (batch : List MatchPredictionWithMatchData) (i : ℕ) (h : i < batch.length) :
    (find_and_score_edge_match_predictions batch).persisted.length = batch.length
      ∧ ((find_and_score_edge_match_predictions batch).persisted.getD i
            emptyPrediction).closingEdge
          = some (scoreEdge (batch.getD i emptyPwmd))
      ∧ ((find_and_score_edge_match_predictions batch).persisted.getD i
            emptyPrediction).isScored = true := by
  refine ⟨by simp [find_and_score_edge_match_predictions, update_match_predictions], ?_, ?_⟩
  all_goals
    simp only [find_and_score_edge_match_predictions, update_match_predictions]
    rw [getD_map _ (batch.map scoredPrediction) i _ emptyPrediction (by simpa using h),
      getD_map _ batch i _ emptyPwmd h]
    try rfl

theorem scoring_sets_edge_and_isScored_witness :
    ((find_and_score_edge_match_predictions [pwmdA]).persisted.getD 0
          emptyPrediction).closingEdge
        = some (scoreEdge ([pwmdA].getD 0 emptyPwmd))
      ∧ ((find_and_score_edge_match_predictions [pwmdA]).persisted.getD 0
            emptyPrediction).isScored = true := by
  have h := scoring_sets_edge_and_isScored [pwmdA] 0 (by decide)
  exact ⟨h.2.1, h.2.2⟩

/-! ## Upstream Reporter retry
(utils.py post_prediction_edge_results lines 675-721 and the retry block of
process_app_prediction_requests lines 209-230) -/

/-- Observable events of a posting loop: an HTTP post attempt, an
asyncio.sleep of the given number of seconds, and the terminal
max-retries-exhausted error log. -/
inductive PostEvent where
  | attempt (i : ℕ)
  | sleep (seconds : ℕ)
  | terminalLog
deriving DecidableEq

/-- The body of post_prediction_edge_results (utils.py lines 690-721):
for attempt in range(3), the post of attempt i either succeeds (outcome i is
some response) and is returned, or raises (outcome i is none); on failure
the loop sleeps 2 seconds when attempts remain, and on the last attempt logs
the terminal error; falling out of the loop returns None to the caller. -/
def edgeRetryLoop (outcome : ℕ → Option ℕ) :
    List ℕ → Option ℕ × List PostEvent
  | [] => (none, [])
  | a :: rest =>
    match outcome a with
    | some r => (some r, [PostEvent.attempt a])
    | none =>
      if a < 3 - 1 then
        ((edgeRetryLoop outcome rest).1,
          PostEvent.attempt a :: PostEvent.sleep 2 :: (edgeRetryLoop outcome rest).2)
      else (none, [PostEvent.attempt a, PostEvent.terminalLog])

def post_prediction_edge_results (outcome : ℕ → Option ℕ) :
    Option ℕ × List PostEvent :=
  edgeRetryLoop outcome (List.range 3)

/-- post_app_prediction_responses (utils.py lines 239-278): its whole body
sits inside try/except, an exception while posting is caught and False
returned, success returns True; it never raises to its caller. -/
def post_app_prediction_responses (raises : Bool) : Except Unit Bool :=
  Except.ok (if raises then false else true)

/-- The retry block of process_app_prediction_requests (utils.py lines
209-230): each attempt awaits post_app_prediction_responses and returns its
value; the except branch, which alone sleeps and logs the terminal failure,
runs only when that call raises. -/
def appRetryLoop (raises : ℕ → Bool) :
    List ℕ → Option Bool × List PostEvent
  | [] => (none, [])
  | a :: rest =>
    match post_app_prediction_responses (raises a) with
    | Except.ok b => (some b, [PostEvent.attempt a])
    | Except.error _ =>
      if a < 3 - 1 then
        ((appRetryLoop raises rest).1,
          PostEvent.attempt a :: PostEvent.sleep 2 :: (appRetryLoop raises rest).2)
      else (none, [PostEvent.attempt a, PostEvent.terminalLog])

def app_post_with_retries (raises : ℕ → Bool) :
    Option Bool × List PostEvent :=
  appRetryLoop raises (List.range 3)

/-- C5: on a persistently failing endpoint, the edge-results reporter does
make exactly the three attempts 0, 1, 2 with a 2-second sleep between
consecutive attempts, logs the terminal error and returns None; but the
app-responses reporter returns False after a single attempt with no sleep
and no terminal log, because post_app_prediction_responses catches every
exception internally and returns False, which the retry loop immediately
returns — its retry and terminal-log branches are unreachable. -/
theorem reporter_retry_behaviour :
    post_prediction_edge_results (fun _ => none)
        = (none, [PostEvent.attempt 0, PostEvent.sleep 2, PostEvent.attempt 1,
            PostEvent.sleep 2, PostEvent.attempt 2, PostEvent.terminalLog])
      ∧ app_post_with_retries (fun _ => true) = (some false, [PostEvent.attempt 0]) := by
  constructor <;> rfl

/-! ## Request Dispatcher round
(utils.py send_predictions_to_miners, lines 417-512, non-dev branch) -/

/-- The sender identity attached to a response by the transport. -/
structure Axon where
  hotkey : Option String
deriving DecidableEq

/-- A GetMatchPrediction synapse as it comes back from the dendrite call:
the echoed match_prediction payload and the responding axon.  An absent
response in the round is modelled as none at the round level. -/
structure GetMatchPrediction where
  match_prediction : Option MatchPrediction
  axon : Option Axon
deriving DecidableEq

/-- The response-processing loop of send_predictions_to_miners (utils.py
lines 455-494).  Each iteration first calls is_match_prediction_valid on
response.match_prediction (line 458): when the response is absent, or has no
match_prediction, this raises AttributeError.  The guard at lines 467-474
then logs through response.axon.hotkey (line 476), which itself raises when
the axon is absent.  A valid response is stamped with the responder uid
found by hotkey (lines 485-489, raising IndexError when no uid matches),
the responder hotkey and the receipt time (lines 491-493).  An exception
propagates out of the loop to the handler at line 507. -/
def processResponses (request : MatchPrediction) (now : ℤ)
    (uidAxons : List (ℕ × String)) :
    List (Option GetMatchPrediction) → Except Unit (List MatchPrediction × List ℕ)
  | [] => Except.ok ([], [])
  | r? :: rest =>
    match r? with
    | none => Except.error ()
    | some r =>
      match r.match_prediction with
      | none => Except.error ()
      | some mp =>
        if mp.probabilityChoice.isNone || mp.probability.isNone
            || r.axon.isNone || (r.axon.map (fun a => a.hotkey.isNone)).getD true then
          match r.axon with
          | none => Except.error ()
          | some _ => processResponses request now uidAxons rest
        else if !(is_match_prediction_valid mp request now).1 then
          processResponses request now uidAxons rest
        else
          match r.axon with
          | none => Except.error ()
          | some ax =>
            match ax.hotkey with
            | none => Except.error ()
            | some hk =>
              match uidAxons.find? (fun p => p.2 == hk) with
              | none => Except.error ()
              | some pr =>
                match processResponses request now uidAxons rest with
                | Except.error e => Except.error e
                | Except.ok tail =>
                  Except.ok
                    ({ mp with minerId := some pr.1,
                               hotkey := some hk,
                               predictionDate := some now } :: tail.1,
                      pr.1 :: tail.2)

/-- send_predictions_to_miners at response-processing granularity: the
dendrite fan-out is modelled by the given list of per-responder optional
responses; an exception anywhere in the loop is caught by the handler at
line 507 and the whole function returns None, recording nothing. -/
def send_predictions_to_miners (request : MatchPrediction) (now : ℤ)
    (uidAxons : List (ℕ × String))
    (responses : List (Option GetMatchPrediction)) :
    Option (List MatchPrediction × List ℕ) :=
  match processResponses request now uidAxons responses with
  | Except.ok r => some r
  | Except.error _ => none

/-- A fully valid response to reqA from the responder with hotkey hk1. -/
def goodResponse : GetMatchPrediction :=
  { match_prediction := some respGood, axon := some { hotkey := some "hk1" } }

/-- A response whose sender identity is missing entirely. -/
def noAxonResponse : GetMatchPrediction :=
  { match_prediction := some respGood, axon := none }

/-- C6: the claim fails on the code.  With an absent response in the round,
the call at utils.py line 458 raises before the absent-response guard can
run; with a response lacking its sender identity, the guard log at line 476
raises; either way the handler at line 507 returns None and every other
valid response of the round is dropped instead of being accepted.  Without
the bad response, the same valid response is accepted and stamped with
responder id, hotkey and receipt time. -/
theorem dispatcher_bad_response_drops_round :
    send_predictions_to_miners reqA 500 [(7, "hk1")] [none, some goodResponse] = none
      ∧ send_predictions_to_miners reqA 500 [(7, "hk1")]
          [some noAxonResponse, some goodResponse] = none
      ∧ send_predictions_to_miners reqA 500 [(7, "hk1")] [some goodResponse]
          = some ([{ respGood with minerId := some 7,
                                   hotkey := some "hk1",
                                   predictionDate := some 500 }], [7]) := by
  refine ⟨rfl, rfl, ?_⟩
  rfl

/-! ## Responder Selector (utils.py check_uid_availability, lines 805-824) -/

/-- The metagraph fields read by check_uid_availability, as total maps over
uids: whether the axon at a uid is serving, whether the uid holds a
validator permit, and its stake. -/
structure Metagraph where
  axon_is_serving : ℕ → Bool
  validator_permit : ℕ → Bool
  S : ℕ → ℚ

/-- check_uid_availability (utils.py lines 805-824): filter non-serving
axons, then filter uids holding a validator permit whose stake exceeds
vpermit_tao_limit; available otherwise. -/
def check_uid_availability (metagraph : Metagraph) (uid : ℕ)
    (vpermit_tao_limit : ℚ) : Bool :=
  if !metagraph.axon_is_serving uid then false
  else if metagraph.validator_permit uid
      && decide (metagraph.S uid > vpermit_tao_limit) then false
  else true

/-- A metagraph whose uid 0 is serving, holds no validator permit, and has
stake 5000. -/
def mgHighStakeMiner : Metagraph :=
  { axon_is_serving := fun _ => true, validator_permit := fun _ => false,
    S := fun _ => 5000 }

/-- C7: the claim is false on the code: uid 0 is serving with stake 5000,
above the ceiling 1024, yet it is available, because the stake ceiling is
only applied to uids holding a validator permit (utils.py lines 820-822). -/
theorem selector_claim_counterexample :
    check_uid_availability mgHighStakeMiner 0 1024 = true
      ∧ ¬(mgHighStakeMiner.S 0 ≤ 1024) := by
  constructor
  · rfl
  · decide

/-- C7 (amended): a responder uid is eligible for selection iff its axon is
serving and, in case it holds a validator permit, its stake is at most
vpermit_tao_limit. -/
theorem selector_availability_amended (metagraph : Metagraph) (uid : ℕ)
    (limit : ℚ) :
    check_uid_availability metagraph uid limit = true
      ↔ (metagraph.axon_is_serving uid = true
          ∧ (metagraph.validator_permit uid = true → metagraph.S uid ≤ limit)) := by
  unfold check_uid_availability
  rcases hs : metagraph.axon_is_serving uid
  · simp [hs]
  · rcases hp : metagraph.validator_permit uid
    · simp [hp]
    · by_cases hle : metagraph.S uid ≤ limit
      · simp [hp, hle, not_lt.mpr hle]
      · simp [hp, hle, lt_of_not_le hle]

/-! ## Immutable Prediction fields
(data.py base_fields_are_immutable lines 109-114, StrictBaseModel Config
lines 17-24, and the write path at utils.py lines 443-446) -/

/-- A dynamically typed Python date attribute value: a datetime instant or
the string a raw attribute write stored in the field. -/
inductive PyDate where
  | dtime (t : ℤ)
  | text (s : String)
deriving DecidableEq

/-- The str() conversion applied at utils.py line 445. -/
def pyStrOfDate : PyDate → String
  | PyDate.dtime t => toString t
  | PyDate.text s => s

/-- Prediction.base_fields_are_immutable (data.py lines 110-114),
specialised to matchDate: given the value the field already holds among the
validated values (when present) and the incoming value, raise when they
differ and return the value otherwise. -/
def base_fields_are_immutable (values : Option PyDate) (v : PyDate) :
    Except String PyDate :=
  match values with
  | some old =>
    if v ≠ old then
      Except.error "matchDate is immutable and cannot be changed"
    else Except.ok v
  | none => Except.ok v

/-- The mutable match_prediction record as stored at runtime, restricted to
the fields the write path touches. -/
structure SynapsePrediction where
  matchId : String
  matchDate : PyDate
deriving DecidableEq

/-- pydantic v1 attribute assignment for a StrictBaseModel instance: the
model Config (data.py lines 20-24) enables only use_enum_values and not
validate_assignment, so setting an attribute stores the raw value and runs
no field validator. -/
def pydantic_setattr_matchDate (p : SynapsePrediction) (v : PyDate) :
    SynapsePrediction :=
  { p with matchDate := v }

/-- The write path at utils.py lines 443-446:
input_synapse.match_prediction.matchDate is assigned
str(input_synapse.match_prediction.matchDate) before dispatch. -/
def dispatch_serialize_matchDate (p : SynapsePrediction) : SynapsePrediction :=
  pydantic_setattr_matchDate p (PyDate.text (pyStrOfDate p.matchDate))

/-- C10: the claim fails on the code at the dispatch write path: starting
from matchDate = datetime 1000, the assignment at utils.py line 444 stores
the distinct string value and succeeds, with no rejection possible since
assignment bypasses validators; yet the immutability validator itself would
have rejected exactly this change had it been consulted. -/
theorem matchDate_write_not_rejected :
    dispatch_serialize_matchDate { matchId := "m1", matchDate := PyDate.dtime 1000 }
        = { matchId := "m1", matchDate := PyDate.text "1000" }
      ∧ PyDate.text "1000" ≠ PyDate.dtime 1000
      ∧ base_fields_are_immutable (some (PyDate.dtime 1000)) (PyDate.text "1000")
          = Except.error "matchDate is immutable and cannot be changed" := by
  refine ⟨rfl, by decide, ?_⟩
  rfl

end Sportstensor
